import Mathlib

/-!
Verification of the Balance & Depreciation Engine of the accounting
application (source: `src/models.py`).

The Python data-access layer is shallowly embedded: the relational store is a
Lean structure holding the rows of the relevant tables, SQL `TEXT` values are
`String`s compared with byte-wise (lexicographic) order as SQLite does,
Python integers are `Int`, and Python floor division `//` is `Int.fdiv`.
Dates are stored as `YYYY-MM-DD` strings exactly as in the database; the
string comparisons the SQL queries perform are modelled by a structural
lexicographic comparison on the underlying character lists (Lean's built-in
`String` order is not used because it does not reduce in the kernel).
Wall-clock reads (`datetime.date.today().year`, `datetime('now')`) become
explicit parameters.  `created_at` timestamps and the floating point
`annual_rate` report field (`round(1/life, 4)`) are not modelled; no claim
mentions them.  Each definition mirrors one Python function of
`src/models.py` and keeps its name.
-/

/-! ## String primitives (structural stand-ins for SQL text operations) -/

/-- Lexicographic order on character lists: the comparison SQLite's BINARY
collation performs on the `YYYY-MM-DD` date strings. -/
def listLtChars : List Char → List Char → Bool
  | [], [] => false
  | [], _ :: _ => true
  | _ :: _, [] => false
  | a :: as, b :: bs => if a < b then true else if b < a then false else listLtChars as bs

/-- `a < b` for SQL text values. -/
def strLtB (a b : String) : Bool := listLtChars a.data b.data

/-- `a <= b` for SQL text values. -/
def strLeB (a b : String) : Bool := !(strLtB b a)

/-- Split a character list at a separator, as Python `str.split(sep)`. -/
def splitSep (sep : Char) : List Char → List Char → List (List Char)
  | [], acc => [acc.reverse]
  | c :: cs, acc => if c = sep then acc.reverse :: splitSep sep cs [] else splitSep sep cs (c :: acc)

/-- Parse a non-empty all-digit character list as a natural number
(the successful case of Python `int(...)` on date components). -/
def digitsToNat? (l : List Char) : Option Nat :=
  if l ≠ [] ∧ l.all Char.isDigit then
    some (l.foldl (fun n c => n * 10 + (c.toNat - 48)) 0)
  else none

/-- `int(...)` on a date component, defaulting to 0 where Python would raise
(malformed stored dates never arise from the application's writers). -/
def toNatD (l : List Char) : Nat := (digitsToNat? l).getD 0

/-- Python `str.strip()`. -/
def trimChars (l : List Char) : List Char :=
  ((l.dropWhile Char.isWhitespace).reverse.dropWhile Char.isWhitespace).reverse

/-- `str.strip()` on a `String`. -/
def strTrim (s : String) : String := String.mk (trimChars s.data)

/-! ## Insertion sort: the model of SQL `ORDER BY` -/

/-- Insert into a list sorted by `le`. -/
def insertLe (le : α → α → Bool) (a : α) : List α → List α
  | [] => [a]
  | b :: bs => if le a b then a :: b :: bs else b :: insertLe le a bs

/-- Insertion sort; models `ORDER BY` (any sort agreeing with the key order
is a faithful model, since SQL leaves the order of key-equal rows open). -/
def sortByLe (le : α → α → Bool) : List α → List α
  | [] => []
  | a :: as => insertLe le a (sortByLe le as)

theorem insertLe_perm (le : α → α → Bool) (a : α) (l : List α) :
    (insertLe le a l).Perm (a :: l) := by
  induction l with
  | nil => exact List.Perm.refl _
  | cons b bs ih =>
    simp only [insertLe]
    split
    · exact List.Perm.refl _
    · exact (ih.cons b).trans (List.Perm.swap a b bs)

theorem sortByLe_perm (le : α → α → Bool) (l : List α) : (sortByLe le l).Perm l := by
  induction l with
  | nil => exact List.Perm.refl _
  | cons a as ih => exact (insertLe_perm le a (sortByLe le as)).trans (ih.cons a)

theorem mem_sortByLe {le : α → α → Bool} {l : List α} {x : α} :
    x ∈ sortByLe le l ↔ x ∈ l := (sortByLe_perm le l).mem_iff

/-! ## Tax calculation (`models.py` lines 15–28) -/

/-- `TAX_RATES` dictionary. -/
def TAX_RATES : List (String × Int) := [("10%", 10), ("8%", 8), ("非課税", 0), ("不課税", 0)]

/-- `TAX_RATES.get(classification, 0)`. -/
def taxRateOf (classification : String) : Int :=
  ((TAX_RATES.find? (fun p => p.1 == classification)).map (·.2)).getD 0

/-- `calculate_tax_amount`: consumption tax extracted from a tax-inclusive
amount; Python `//` is floor division, hence `Int.fdiv`. -/
def calculate_tax_amount (amount : Int) (classification : String) : Int :=
  let rate := taxRateOf classification
  if rate = 0 then 0 else (amount * rate).fdiv (100 + rate)

/-- Every rate in the table (or the default) is 0, 8 or 10. -/
theorem taxRateOf_cases (c : String) : taxRateOf c = 0 ∨ taxRateOf c = 8 ∨ taxRateOf c = 10 := by
  unfold taxRateOf TAX_RATES
  simp only [List.find?]
  rcases h1 : ("10%" == c) with _ | _ <;> rcases h2 : ("8%" == c) with _ | _ <;>
    rcases h3 : ("非課税" == c) with _ | _ <;> rcases h4 : ("不課税" == c) with _ | _ <;>
    simp [h1, h2, h3, h4]

/-- C4: `calculate_tax_amount` returns 0 for rate-0 classifications, otherwise
`amount * rate // (100 + rate)` with floor division and rates 10 / 8 for the
two taxable classifications; for positive amounts the result is between 0 and
the amount, and the statutory example `calculate_tax_amount 10800 "8%" = 800`
holds. -/
theorem calculate_tax_amount_spec :
    (∀ a c, taxRateOf c = 0 → calculate_tax_amount a c = 0) ∧
    (∀ a c, taxRateOf c ≠ 0 →
      calculate_tax_amount a c = (a * taxRateOf c).fdiv (100 + taxRateOf c)) ∧
    taxRateOf "10%" = 10 ∧ taxRateOf "8%" = 8 ∧
    taxRateOf "非課税" = 0 ∧ taxRateOf "不課税" = 0 ∧
    (∀ a c, 0 < a → 0 ≤ calculate_tax_amount a c ∧ calculate_tax_amount a c ≤ a) ∧
    calculate_tax_amount 10800 "8%" = 800 := by
  refine ⟨?_, ?_, by decide, by decide, by decide, by decide, ?_, by decide⟩
  · intro a c h
    simp [calculate_tax_amount, h]
  · intro a c h
    simp [calculate_tax_amount, h]
  · intro a c ha
    rcases taxRateOf_cases c with h | h | h
    · rw [show calculate_tax_amount a c = 0 by simp [calculate_tax_amount, h]]
      omega
    · rw [show calculate_tax_amount a c = (a * 8).fdiv 108 by
        simp [calculate_tax_amount, h]]
      rw [Int.fdiv_eq_ediv _ (by decide)]
      constructor <;> omega
    · rw [show calculate_tax_amount a c = (a * 10).fdiv 110 by
        simp [calculate_tax_amount, h]]
      rw [Int.fdiv_eq_ediv _ (by decide)]
      constructor <;> omega

/-- Witness for C4: hypotheses of the bound are satisfiable; at `amount = 550`
and classification `10%` the tax is 50, inside `[0, 550]`. -/
theorem calculate_tax_amount_spec_witness :
    0 ≤ calculate_tax_amount 550 "10%" ∧ calculate_tax_amount 550 "10%" ≤ 550 :=
  calculate_tax_amount_spec.2.2.2.2.2.2.1 550 "10%" (by decide)

/-! ## Data model (tables of `db.py`, rows as Lean structures) -/

/-- A row of `accounts_master`.  `created_at` is not modelled (never read). -/
structure Account where
  id : Int
  code : String
  name : String
  account_type : String
  tax_default : String
  is_active : Bool
  display_order : Int
  updated_at : String
deriving DecidableEq, Repr, Inhabited

/-- A row of `journal_entries`.  `entry_date` is the stored `YYYY-MM-DD`
text value. -/
structure JournalEntry where
  id : Int
  user_id : Int
  entry_date : String
  debit_account_id : Int
  credit_account_id : Int
  amount : Int
  tax_classification : String
  tax_amount : Int
  counterparty : String
  memo : String
  evidence_url : String
  source : String
  is_deleted : Bool
deriving DecidableEq, Repr, Inhabited

/-- A row of `opening_balances`. -/
structure OpeningBalance where
  user_id : Int
  fiscal_year : String
  account_id : Int
  amount : Int
deriving DecidableEq, Repr, Inhabited

/-- The relational store as seen by the balance calculator. -/
structure DB where
  accounts : List Account
  entries : List JournalEntry
  openings : List OpeningBalance
  next_id : Int
deriving DecidableEq, Repr, Inhabited

/-! ## Trial balance (`get_trial_balance`, `models.py` lines 389–472) -/

/-- The `WHERE` clause shared by the in-window debit/credit totals:
`je.is_deleted = 0 AND je.user_id = ?` plus the optional
`entry_date >= start_date` and `entry_date <= end_date` conditions. -/
def windowPred (start_date end_date : Option String) (user_id : Int)
    (je : JournalEntry) : Bool :=
  !je.is_deleted && je.user_id == user_id &&
  (match start_date with | some s => strLeB s je.entry_date | none => true) &&
  (match end_date with | some e => strLeB je.entry_date e | none => true)

/-- `debit_totals[account_id]`: `SELECT SUM(amount) ... GROUP BY
debit_account_id`, with the missing-key default 0 (SUM of no rows). -/
def debitTotal (entries : List JournalEntry) (start_date end_date : Option String)
    (user_id aid : Int) : Int :=
  ((entries.filter (fun je => windowPred start_date end_date user_id je &&
      je.debit_account_id == aid)).map (·.amount)).sum

/-- `credit_totals[account_id]`, symmetric to `debitTotal`. -/
def creditTotal (entries : List JournalEntry) (start_date end_date : Option String)
    (user_id aid : Int) : Int :=
  ((entries.filter (fun je => windowPred start_date end_date user_id je &&
      je.credit_account_id == aid)).map (·.amount)).sum

/-- `fiscal_year = start_date[:4] if start_date else "2025"`. -/
def tbFiscalYear (start_date : Option String) : String :=
  match start_date with
  | some s => s.take 4
  | none => "2025"

/-- `openings[account_id]`: the stored opening balance for
`(fiscal_year, user, account)`, default 0. -/
def openingAmount (openings : List OpeningBalance) (fiscal_year : String)
    (user_id aid : Int) : Int :=
  ((openings.find? (fun ob => ob.fiscal_year == fiscal_year &&
      ob.user_id == user_id && ob.account_id == aid)).map (·.amount)).getD 0

/-- The carry-forward `WHERE` clause (`models.py` lines 428–433):
`is_deleted = 0 AND user_id = ? AND entry_date < start_date`, and the bound
`entry_date >= fiscal_year_start` is added **only when**
`start_date > fy_start`. -/
def cfPred (start_date : String) (user_id : Int) (je : JournalEntry) : Bool :=
  let fy_start := tbFiscalYear (some start_date) ++ "-01-01"
  !je.is_deleted && je.user_id == user_id && strLtB je.entry_date start_date &&
  (if strLtB fy_start start_date then strLeB fy_start je.entry_date else true)

/-- `cf_debit[account_id]`: pre-period debit sum. -/
def cfDebitTotal (entries : List JournalEntry) (start_date : String)
    (user_id aid : Int) : Int :=
  ((entries.filter (fun je => cfPred start_date user_id je &&
      je.debit_account_id == aid)).map (·.amount)).sum

/-- `cf_credit[account_id]`: pre-period credit sum. -/
def cfCreditTotal (entries : List JournalEntry) (start_date : String)
    (user_id aid : Int) : Int :=
  ((entries.filter (fun je => cfPred start_date user_id je &&
      je.credit_account_id == aid)).map (·.amount)).sum

/-- One output row of `get_trial_balance`. -/
structure TBRow where
  account_id : Int
  code : String
  name : String
  account_type : String
  opening_balance : Int
  carry_forward : Int
  debit_total : Int
  credit_total : Int
  closing_balance : Int
deriving DecidableEq, Repr, Inhabited

/-- The loop body of `get_trial_balance` (lines 442–468) for one account. -/
def tbRowFor (db : DB) (start_date end_date : Option String) (user_id : Int)
    (acc : Account) : TBRow :=
  let aid := acc.id
  let opening := openingAmount db.openings (tbFiscalYear start_date) user_id aid
  let debit := debitTotal db.entries start_date end_date user_id aid
  let credit := creditTotal db.entries start_date end_date user_id aid
  let cf_d := match start_date with | some s => cfDebitTotal db.entries s user_id aid | none => 0
  let cf_c := match start_date with | some s => cfCreditTotal db.entries s user_id aid | none => 0
  if acc.account_type = "資産" ∨ acc.account_type = "費用" then
    { account_id := aid, code := acc.code, name := acc.name,
      account_type := acc.account_type, opening_balance := opening,
      carry_forward := opening + cf_d - cf_c, debit_total := debit,
      credit_total := credit,
      closing_balance := opening + cf_d - cf_c + debit - credit }
  else
    { account_id := aid, code := acc.code, name := acc.name,
      account_type := acc.account_type, opening_balance := opening,
      carry_forward := opening + cf_c - cf_d, debit_total := debit,
      credit_total := credit,
      closing_balance := opening + cf_c - cf_d + credit - debit }

/-- `ORDER BY display_order, code` on active accounts. -/
def activeAccountsSorted (accounts : List Account) : List Account :=
  sortByLe (fun a b =>
      if a.display_order == b.display_order then strLeB a.code b.code
      else decide (a.display_order < b.display_order))
    (accounts.filter (·.is_active))

/-- `get_trial_balance(start_date, end_date, user_id)`. -/
def get_trial_balance (db : DB) (start_date end_date : Option String)
    (user_id : Int) : List TBRow :=
  (activeAccountsSorted db.accounts).map (tbRowFor db start_date end_date user_id)

/-- C1: every trial-balance row satisfies the balance-side closing formula,
with `debit_total`/`credit_total` exactly the window sums of non-deleted
entries having the account as debit / credit leg. -/
theorem trial_balance_row_spec (db : DB) (s e : Option String) (u : Int) :
    ∀ row ∈ get_trial_balance db s e u,
      row.debit_total = debitTotal db.entries s e u row.account_id ∧
      row.credit_total = creditTotal db.entries s e u row.account_id ∧
      ((row.account_type = "資産" ∨ row.account_type = "費用") →
        row.closing_balance = row.carry_forward + row.debit_total - row.credit_total) ∧
      ((row.account_type = "負債" ∨ row.account_type = "純資産" ∨ row.account_type = "収益") →
        row.closing_balance = row.carry_forward + row.credit_total - row.debit_total) := by
  intro row hrow
  simp only [get_trial_balance, List.mem_map] at hrow
  obtain ⟨acc, -, rfl⟩ := hrow
  by_cases h : acc.account_type = "資産" ∨ acc.account_type = "費用"
  · simp only [tbRowFor, if_pos h]
    refine ⟨trivial, trivial, fun _ => trivial, fun hc => ?_⟩
    rcases h with h | h <;> rcases hc with hc | hc | hc <;> rw [h] at hc <;>
      exact absurd hc (by decide)
  · simp only [tbRowFor, if_neg h]
    exact ⟨trivial, trivial, fun hc => absurd hc h, fun _ => trivial⟩

/-- A store with one asset-type account, one in-window entry and one
pre-window entry, used to instantiate the trial-balance theorems. -/
def dbC1 : DB :=
  { accounts := [{ id := 1, code := "100", name := "現金", account_type := "資産",
                   tax_default := "10%", is_active := true, display_order := 100,
                   updated_at := "" }],
    entries := [{ id := 1, user_id := 0, entry_date := "2025-03-10",
                  debit_account_id := 1, credit_account_id := 2, amount := 70,
                  tax_classification := "非課税", tax_amount := 0,
                  counterparty := "", memo := "", evidence_url := "",
                  source := "manual", is_deleted := false }],
    openings := [{ user_id := 0, fiscal_year := "2025", account_id := 1, amount := 5 }],
    next_id := 2 }

/-- Witness for C1: on `dbC1` the single row is debit-normal and its closing
balance `75 = 5 + 70 - 0` satisfies the formula. -/
theorem trial_balance_row_spec_witness :
    ∃ row ∈ get_trial_balance dbC1 (some "2025-01-01") (some "2025-12-31") 0,
      row.closing_balance = row.carry_forward + row.debit_total - row.credit_total :=
  ⟨(get_trial_balance dbC1 (some "2025-01-01") (some "2025-12-31") 0).head!,
   by decide,
   (trial_balance_row_spec dbC1 (some "2025-01-01") (some "2025-12-31") 0
      (get_trial_balance dbC1 (some "2025-01-01") (some "2025-12-31") 0).head!
      (by decide)).2.2.1 (by decide)⟩

/-- A store holding an entry dated in an earlier fiscal year (2024) than the
queried window, exposing the carry-forward lower-bound gap. -/
def dbC2 : DB :=
  { accounts := [{ id := 1, code := "100", name := "現金", account_type := "資産",
                   tax_default := "10%", is_active := true, display_order := 100,
                   updated_at := "" }],
    entries := [{ id := 1, user_id := 0, entry_date := "2024-06-15",
                  debit_account_id := 1, credit_account_id := 2, amount := 100,
                  tax_classification := "非課税", tax_amount := 0,
                  counterparty := "", memo := "", evidence_url := "",
                  source := "manual", is_deleted := false }],
    openings := [{ user_id := 0, fiscal_year := "2025", account_id := 1, amount := 50 }],
    next_id := 2 }

/-- Counterexample to C2: with `start_date = "2025-01-01"` (equal to the
fiscal-year start) the pre-period debit sum counts the 2024 entry, is 100
instead of 0, and `carry_forward = 150` differs from the stored opening
balance 50. -/
theorem carry_forward_window_counterexample :
    cfDebitTotal dbC2.entries "2025-01-01" 0 1 = 100 ∧
    (get_trial_balance dbC2 (some "2025-01-01") none 0).map
        (fun r => (r.account_id, r.opening_balance, r.carry_forward)) = [(1, 50, 150)] ∧
    (150 : Int) ≠ 50 := by
  refine ⟨by decide, by decide, by decide⟩

/-- C2 as amended: when `start_date` is strictly after the fiscal-year start
the pre-period sums range exactly over the half-open interval
`[fiscal_year_start, start_date)`; when `start_date` equals the fiscal-year
start they instead range over **all** earlier dates, so entries of earlier
fiscal years contribute; and the carry-forward of every trial-balance row is
built from these sums by the balance-side rule. -/
theorem carry_forward_window_spec :
    (∀ (entries : List JournalEntry) (s : String) (u aid : Int),
      strLtB (s.take 4 ++ "-01-01") s = true →
      cfDebitTotal entries s u aid =
        ((entries.filter (fun je => (!je.is_deleted && je.user_id == u &&
            strLtB je.entry_date s && strLeB (s.take 4 ++ "-01-01") je.entry_date) &&
            je.debit_account_id == aid)).map (·.amount)).sum ∧
      cfCreditTotal entries s u aid =
        ((entries.filter (fun je => (!je.is_deleted && je.user_id == u &&
            strLtB je.entry_date s && strLeB (s.take 4 ++ "-01-01") je.entry_date) &&
            je.credit_account_id == aid)).map (·.amount)).sum) ∧
    (∀ (entries : List JournalEntry) (s : String) (u aid : Int),
      strLtB (s.take 4 ++ "-01-01") s = false →
      cfDebitTotal entries s u aid =
        ((entries.filter (fun je => (!je.is_deleted && je.user_id == u &&
            strLtB je.entry_date s) && je.debit_account_id == aid)).map (·.amount)).sum ∧
      cfCreditTotal entries s u aid =
        ((entries.filter (fun je => (!je.is_deleted && je.user_id == u &&
            strLtB je.entry_date s) && je.credit_account_id == aid)).map (·.amount)).sum) ∧
    (∀ (db : DB) (s : String) (e : Option String) (u : Int),
      ∀ row ∈ get_trial_balance db (some s) e u,
        row.carry_forward =
          if row.account_type = "資産" ∨ row.account_type = "費用" then
            row.opening_balance + cfDebitTotal db.entries s u row.account_id -
              cfCreditTotal db.entries s u row.account_id
          else
            row.opening_balance + cfCreditTotal db.entries s u row.account_id -
              cfDebitTotal db.entries s u row.account_id) := by
  refine ⟨?_, ?_, ?_⟩
  · intro entries s u aid h
    constructor
    · simp only [cfDebitTotal, cfPred, tbFiscalYear, h, if_true, Bool.and_assoc]
    · simp only [cfCreditTotal, cfPred, tbFiscalYear, h, if_true, Bool.and_assoc]
  · intro entries s u aid h
    constructor
    · simp [cfDebitTotal, cfPred, tbFiscalYear, h, Bool.and_assoc]
    · simp [cfCreditTotal, cfPred, tbFiscalYear, h, Bool.and_assoc]
  · intro db s e u row hrow
    simp only [get_trial_balance, List.mem_map] at hrow
    obtain ⟨acc, -, rfl⟩ := hrow
    by_cases h : acc.account_type = "資産" ∨ acc.account_type = "費用"
    · simp only [tbRowFor, if_pos h]
    · simp only [tbRowFor, if_neg h]

/-- Witness for C2's amended theorem: on `dbC2` with `start_date`
`"2025-03-01"` (strictly inside the fiscal year) the pre-period sums are
restricted to 2025 and the 2024 entry is excluded, giving 0. -/
theorem carry_forward_window_spec_witness :
    cfDebitTotal dbC2.entries "2025-03-01" 0 1 =
      ((dbC2.entries.filter (fun je => (!je.is_deleted && je.user_id == 0 &&
          strLtB je.entry_date "2025-03-01" &&
          strLeB ("2025-03-01".take 4 ++ "-01-01") je.entry_date) &&
          je.debit_account_id == 1)).map (·.amount)).sum :=
  ((carry_forward_window_spec.1 dbC2.entries "2025-03-01" 0 1 (by decide)).1)

/-! ## General ledger (`get_ledger_entries`, `models.py` lines 605–667) -/

/-- One output row of `get_ledger_entries` (the selected columns plus the
derived `debit_amount` / `credit_amount` / `balance` / `counter_account`). -/
structure LedgerRow where
  id : Int
  entry_date : String
  amount : Int
  tax_classification : String
  counterparty : String
  memo : String
  debit_account_id : Int
  credit_account_id : Int
  debit_account : String
  credit_account : String
  debit_amount : Int
  credit_amount : Int
  balance : Int
  counter_account : String
deriving DecidableEq, Repr, Inhabited

/-- `ORDER BY je.entry_date ASC, je.id ASC`. -/
def ledgerOrder (a b : JournalEntry) : Bool :=
  if strLtB a.entry_date b.entry_date then true
  else if strLtB b.entry_date a.entry_date then false
  else decide (a.id ≤ b.id)

/-- The running-balance loop of `get_ledger_entries` (lines 646–663) over the
already-joined rows `(entry, debit-account name, credit-account name)`. -/
def ledgerRows (atype : String) (aid : Int) :
    Int → List (JournalEntry × String × String) → List LedgerRow
  | _, [] => []
  | balance, (je, dname, cname) :: rest =>
    let debit_amount := if je.debit_account_id == aid then je.amount else 0
    let credit_amount := if je.credit_account_id == aid then je.amount else 0
    let balance :=
      if atype = "資産" ∨ atype = "費用" then balance + debit_amount - credit_amount
      else balance + credit_amount - debit_amount
    { id := je.id, entry_date := je.entry_date, amount := je.amount,
      tax_classification := je.tax_classification,
      counterparty := je.counterparty, memo := je.memo,
      debit_account_id := je.debit_account_id,
      credit_account_id := je.credit_account_id,
      debit_account := dname, credit_account := cname,
      debit_amount := debit_amount, credit_amount := credit_amount,
      balance := balance,
      counter_account := if je.debit_account_id == aid then cname else dname } ::
      ledgerRows atype aid balance rest

/-- The result of `get_ledger_entries` in the non-error case. -/
structure LedgerResult where
  account : Account
  opening_balance : Int
  entries : List LedgerRow
deriving DecidableEq, Repr, Inhabited

/-- `get_ledger_entries(account_id, start_date, end_date, user_id)`;
`today_year` stands for `str(datetime.date.today().year)`, read only when no
`start_date` is supplied.  `none` models the `{"error": ...}` return for an
unknown account.  The SQL `JOIN` onto `accounts_master` for the two leg
names is an inner join: entries whose legs dangle are dropped. -/
def get_ledger_entries (db : DB) (account_id : Int)
    (start_date end_date : Option String) (user_id : Int) (today_year : String) :
    Option LedgerResult :=
  match db.accounts.find? (fun a => a.id == account_id) with
  | none => none
  | some account =>
    let filtered := db.entries.filter (fun je =>
      windowPred start_date end_date user_id je &&
      (je.debit_account_id == account_id || je.credit_account_id == account_id))
    let sorted := sortByLe ledgerOrder filtered
    let joined := sorted.filterMap (fun je =>
      match db.accounts.find? (fun a => a.id == je.debit_account_id),
            db.accounts.find? (fun a => a.id == je.credit_account_id) with
      | some da, some ca => some (je, da.name, ca.name)
      | _, _ => none)
    let fiscal_year := match start_date with | some s => s.take 4 | none => today_year
    let opening := openingAmount db.openings fiscal_year user_id account_id
    some { account := account, opening_balance := opening,
           entries := ledgerRows account.account_type account_id opening joined }

/-- The running balance reported on the last ledger row, or the opening
balance when the ledger has no rows (the quantity C3 compares with the
trial balance). -/
def ledgerClosing (db : DB) (account_id : Int)
    (start_date end_date : Option String) (user_id : Int) (today_year : String) :
    Option Int :=
  (get_ledger_entries db account_id start_date end_date user_id today_year).map
    (fun r => ((r.entries.getLast?).map (·.balance)).getD r.opening_balance)

/-- A store with movement (entry 1, February) before the queried window
(March onwards), which the trial balance carries forward but the ledger's
running balance ignores. -/
def dbC3 : DB :=
  { accounts := [{ id := 1, code := "100", name := "現金", account_type := "資産",
                   tax_default := "10%", is_active := true, display_order := 100,
                   updated_at := "" },
                 { id := 2, code := "200", name := "借入金", account_type := "負債",
                   tax_default := "不課税", is_active := true, display_order := 200,
                   updated_at := "" }],
    entries := [{ id := 1, user_id := 0, entry_date := "2025-02-01",
                  debit_account_id := 1, credit_account_id := 2, amount := 100,
                  tax_classification := "不課税", tax_amount := 0,
                  counterparty := "", memo := "", evidence_url := "",
                  source := "manual", is_deleted := false },
                { id := 2, user_id := 0, entry_date := "2025-03-10",
                  debit_account_id := 1, credit_account_id := 2, amount := 40,
                  tax_classification := "不課税", tax_amount := 0,
                  counterparty := "", memo := "", evidence_url := "",
                  source := "manual", is_deleted := false }],
    openings := [],
    next_id := 3 }

/-- Counterexample to C3: for account 1 and window starting `"2025-03-01"`,
the ledger's final running balance is 40 while the trial balance's
`closing_balance` is 140 (it carries the February movement forward). -/
theorem ledger_trial_balance_counterexample :
    ledgerClosing dbC3 1 (some "2025-03-01") none 0 "2025" = some 40 ∧
    (get_trial_balance dbC3 (some "2025-03-01") none 0).map
        (fun r => (r.account_id, r.closing_balance)) = [(1, 140), (2, 140)] ∧
    (40 : Int) ≠ 140 := by
  refine ⟨by decide, by decide, by decide⟩

/-- The per-entry running-balance increment of the ledger loop. -/
def ledgerInc (atype : String) (aid : Int) (je : JournalEntry) : Int :=
  let d := if je.debit_account_id == aid then je.amount else 0
  let c := if je.credit_account_id == aid then je.amount else 0
  if atype = "資産" ∨ atype = "費用" then d - c else c - d

theorem getLast?_cons_map_getD {α β : Type _} (f : α → β) (a : α) (l : List α) (b : β) :
    (((a :: l).getLast?).map f).getD b = ((l.getLast?).map f).getD (f a) := by
  induction l with
  | nil => simp
  | cons c cs ih =>
    rw [List.getLast?_cons_cons]
    cases h : (c :: cs).getLast? with
    | none => exact absurd h (by simp)
    | some x => simp [h]

theorem ledgerRows_lastBalance (atype : String) (aid : Int)
    (l : List (JournalEntry × String × String)) : ∀ b : Int,
    (((ledgerRows atype aid b l).getLast?).map (·.balance)).getD b
      = b + (l.map (fun t => ledgerInc atype aid t.1)).sum := by
  induction l with
  | nil => intro b; simp [ledgerRows]
  | cons t rest ih =>
    intro b
    obtain ⟨je, dn, cn⟩ := t
    simp only [ledgerRows, getLast?_cons_map_getD, List.map_cons, List.sum_cons]
    rw [ih]
    by_cases h : atype = "資産" ∨ atype = "費用" <;> simp [ledgerInc, h] <;> ring

theorem map_filterMap_of_forall {α β γ : Type _} (g : α → Option β) (f : β → γ)
    (h : α → γ) : ∀ l : List α, (∀ x ∈ l, (g x).map f = some (h x)) →
    (l.filterMap g).map f = l.map h := by
  intro l
  induction l with
  | nil => intro; simp
  | cons a as ih =>
    intro H
    have ha := H a (by simp)
    cases hg : g a with
    | none => rw [hg] at ha; simp at ha
    | some b =>
      rw [hg] at ha
      simp only [Option.map_some'] at ha
      simp [List.filterMap_cons, hg, ih (fun x hx => H x (by simp [hx])),
        Option.some.inj ha]

theorem sum_ledger_split (entries : List JournalEntry) (s e : Option String)
    (u aid : Int) :
    ((entries.filter (fun je => windowPred s e u je &&
        (je.debit_account_id == aid || je.credit_account_id == aid))).map
        (fun je => (if je.debit_account_id = aid then je.amount else 0) -
                   (if je.credit_account_id = aid then je.amount else 0))).sum
      = debitTotal entries s e u aid - creditTotal entries s e u aid ∧
    ((entries.filter (fun je => windowPred s e u je &&
        (je.debit_account_id == aid || je.credit_account_id == aid))).map
        (fun je => (if je.credit_account_id = aid then je.amount else 0) -
                   (if je.debit_account_id = aid then je.amount else 0))).sum
      = creditTotal entries s e u aid - debitTotal entries s e u aid := by
  induction entries with
  | nil => simp [debitTotal, creditTotal]
  | cons je rest ih =>
    obtain ⟨ih1, ih2⟩ := ih
    simp only [debitTotal, creditTotal] at ih1 ih2 ⊢
    rcases hw : windowPred s e u je with _ | _ <;>
      by_cases hd : je.debit_account_id = aid <;>
        by_cases hc : je.credit_account_id = aid <;>
          constructor <;> simp [List.filter_cons, hw, hd, hc, ih1, ih2] <;> omega

theorem cf_totals_zero (entries : List JournalEntry) (s : String) (u aid : Int)
    (hpre : ∀ je ∈ entries, je.is_deleted = false → je.user_id = u →
      (je.debit_account_id = aid ∨ je.credit_account_id = aid) →
      strLtB je.entry_date s = false) :
    cfDebitTotal entries s u aid = 0 ∧ cfCreditTotal entries s u aid = 0 := by
  constructor
  · have hnil : entries.filter
        (fun je => cfPred s u je && je.debit_account_id == aid) = [] := by
      refine List.filter_eq_nil_iff.mpr fun je hje hcontra => ?_
      rw [Bool.and_eq_true] at hcontra
      obtain ⟨h1, h2⟩ := hcontra
      have hleg : je.debit_account_id = aid := by
        exact beq_iff_eq.mp h2
      simp only [cfPred, Bool.and_eq_true, Bool.not_eq_true'] at h1
      obtain ⟨⟨⟨hdel, huser⟩, hlt⟩, -⟩ := h1
      rw [hpre je hje hdel (by exact beq_iff_eq.mp huser) (Or.inl hleg)] at hlt
      exact Bool.false_ne_true hlt
    simp [cfDebitTotal, hnil]
  · have hnil : entries.filter
        (fun je => cfPred s u je && je.credit_account_id == aid) = [] := by
      refine List.filter_eq_nil_iff.mpr fun je hje hcontra => ?_
      rw [Bool.and_eq_true] at hcontra
      obtain ⟨h1, h2⟩ := hcontra
      have hleg : je.credit_account_id = aid := by
        exact beq_iff_eq.mp h2
      simp only [cfPred, Bool.and_eq_true, Bool.not_eq_true'] at h1
      obtain ⟨⟨⟨hdel, huser⟩, hlt⟩, -⟩ := h1
      rw [hpre je hje hdel (by exact beq_iff_eq.mp huser) (Or.inr hleg)] at hlt
      exact Bool.false_ne_true hlt
    simp [cfCreditTotal, hnil]

theorem ledgerClosing_eq_sum (db : DB) (aid : Int) (s e' : Option String)
    (u : Int) (tdy : String) (acc : Account)
    (hfind : db.accounts.find? (fun a => a.id == aid) = some acc)
    (hjoin : ∀ je ∈ db.entries,
      (db.accounts.find? (fun a => a.id == je.debit_account_id)).isSome = true ∧
      (db.accounts.find? (fun a => a.id == je.credit_account_id)).isSome = true) :
    ledgerClosing db aid s e' u tdy =
      some (openingAmount db.openings
              (match s with | some s' => s'.take 4 | none => tdy) u aid +
        ((db.entries.filter (fun je => windowPred s e' u je &&
            (je.debit_account_id == aid || je.credit_account_id == aid))).map
          (ledgerInc acc.account_type aid)).sum) := by
  unfold ledgerClosing get_ledger_entries
  rw [hfind]
  simp only [Option.map_some']
  refine congrArg some ?_
  simp only [ledgerRows_lastBalance]
  rw [map_filterMap_of_forall _ _ (ledgerInc acc.account_type aid) _ ?_]
  · rw [((sortByLe_perm ledgerOrder _).map _).sum_eq]
  · intro je hje
    have hmem : je ∈ db.entries :=
      (List.mem_filter.mp (mem_sortByLe.mp hje)).1
    obtain ⟨hd, hc⟩ := hjoin je hmem
    obtain ⟨da, hda⟩ := Option.isSome_iff_exists.mp hd
    obtain ⟨ca, hca⟩ := Option.isSome_iff_exists.mp hc
    rw [hda, hca]
    rfl

/-- C3 as amended: the ledger's final running balance (or its opening
balance when there are no rows) equals the trial-balance `closing_balance`
for the same account, window and user, **provided** a `start_date` is given
and no non-deleted journal entry of the user dated before `start_date`
references the account on either leg (so the trial balance's
`carry_forward` reduces to the stored opening balance); account ids are
assumed unique and both legs of every entry resolvable (the schema's
foreign keys guarantee the latter). -/
theorem ledger_matches_trial_balance (db : DB) (s : String) (e : Option String)
    (u aid : Int) (tdy : String) (acc : Account)
    (hfind : db.accounts.find? (fun a => a.id == aid) = some acc)
    (huniq : ∀ a ∈ db.accounts, a.id = aid → a = acc)
    (hjoin : ∀ je ∈ db.entries,
      (db.accounts.find? (fun a => a.id == je.debit_account_id)).isSome = true ∧
      (db.accounts.find? (fun a => a.id == je.credit_account_id)).isSome = true)
    (hpre : ∀ je ∈ db.entries, je.is_deleted = false → je.user_id = u →
      (je.debit_account_id = aid ∨ je.credit_account_id = aid) →
      strLtB je.entry_date s = false) :
    ∀ row ∈ get_trial_balance db (some s) e u, row.account_id = aid →
      ledgerClosing db aid (some s) e u tdy = some row.closing_balance := by
  intro row hrow hid
  simp only [get_trial_balance, List.mem_map] at hrow
  obtain ⟨acc', hmem, rfl⟩ := hrow
  have hmem' : acc' ∈ db.accounts := by
    simp only [activeAccountsSorted] at hmem
    exact (List.mem_filter.mp (mem_sortByLe.mp hmem)).1
  have hid' : acc'.id = aid := by
    have h1 : (tbRowFor db (some s) e u acc').account_id = acc'.id := by
      by_cases hb : acc'.account_type = "資産" ∨ acc'.account_type = "費用" <;>
        simp [tbRowFor, hb]
    rw [h1] at hid; exact hid
  have heq : acc' = acc := huniq acc' hmem' hid'
  obtain ⟨hcfd, hcfc⟩ := cf_totals_zero db.entries s u aid hpre
  rw [ledgerClosing_eq_sum db aid (some s) e u tdy acc hfind hjoin]
  refine congrArg some ?_
  rw [← heq]
  by_cases hbr : acc'.account_type = "資産" ∨ acc'.account_type = "費用"
  · have hinc : ledgerInc acc'.account_type aid = (fun je =>
        (if je.debit_account_id = aid then je.amount else 0) -
        (if je.credit_account_id = aid then je.amount else 0)) :=
      funext fun je => by simp [ledgerInc, hbr]
    simp only [tbRowFor, if_pos hbr, hid', hinc]
    rw [(sum_ledger_split db.entries (some s) e u aid).1]
    rw [hcfd, hcfc]
    simp only [tbFiscalYear]
    ring
  · have hinc : ledgerInc acc'.account_type aid = (fun je =>
        (if je.credit_account_id = aid then je.amount else 0) -
        (if je.debit_account_id = aid then je.amount else 0)) :=
      funext fun je => by simp [ledgerInc, hbr]
    simp only [tbRowFor, if_neg hbr, hid', hinc]
    rw [(sum_ledger_split db.entries (some s) e u aid).2]
    rw [hcfd, hcfc]
    simp only [tbFiscalYear]
    ring

/-- Witness for the amended C3: on `dbC3` with window start `"2025-01-01"`
(no pre-window movement) ledger and trial balance agree (both 140). -/
theorem ledger_matches_trial_balance_witness :
    ledgerClosing dbC3 1 (some "2025-01-01") none 0 "2025" =
      some ((get_trial_balance dbC3 (some "2025-01-01") none 0).head!.closing_balance) :=
  ledger_matches_trial_balance dbC3 "2025-01-01" none 0 1 "2025"
    dbC3.accounts.head! (by decide) (by decide) (by decide) (by decide)
    (get_trial_balance dbC3 (some "2025-01-01") none 0).head! (by decide) (by decide)

/-! ## Account deactivation (`delete_account`, `models.py` lines 121–139) -/

/-- `delete_account(account_id)`: counts non-deleted journal entries
referencing the account on either leg (no user filter in the SQL); if any
exist it returns `False` without writing, otherwise it sets `is_active = 0`
**and** `updated_at = datetime('now')` on the matching account row and
returns `True`.  `now` stands for the wall-clock timestamp. -/
def delete_account (db : DB) (account_id : Int) (now : String) : Bool × DB :=
  let used := (db.entries.filter (fun je =>
    (je.debit_account_id == account_id || je.credit_account_id == account_id) &&
    !je.is_deleted)).length
  if used > 0 then (false, db)
  else
    (true, { db with accounts := db.accounts.map (fun a =>
      if a.id == account_id then { a with is_active := false, updated_at := now }
      else a) })

/-- A store for exercising `delete_account`: account 1 is referenced only by
a soft-deleted entry, account 2 by a live one. -/
def dbC8 : DB :=
  { accounts := [{ id := 1, code := "100", name := "現金", account_type := "資産",
                   tax_default := "10%", is_active := true, display_order := 100,
                   updated_at := "2025-01-01 00:00:00" },
                 { id := 2, code := "200", name := "借入金", account_type := "負債",
                   tax_default := "不課税", is_active := true, display_order := 200,
                   updated_at := "2025-01-01 00:00:00" }],
    entries := [{ id := 1, user_id := 0, entry_date := "2025-03-10",
                  debit_account_id := 1, credit_account_id := 1, amount := 40,
                  tax_classification := "不課税", tax_amount := 0,
                  counterparty := "", memo := "", evidence_url := "",
                  source := "manual", is_deleted := true },
                { id := 2, user_id := 0, entry_date := "2025-03-11",
                  debit_account_id := 2, credit_account_id := 3, amount := 10,
                  tax_classification := "不課税", tax_amount := 0,
                  counterparty := "", memo := "", evidence_url := "",
                  source := "manual", is_deleted := false }],
    openings := [],
    next_id := 3 }

/-- Counterexample to C8's "changing nothing else": deactivating account 1
(whose only referencing entry is soft-deleted) succeeds and flips
`is_active`, but it **also** overwrites the account's `updated_at`
timestamp, so the flag is not the only change. -/
theorem delete_account_counterexample :
    (delete_account dbC8 1 "2025-06-01 12:00:00").1 = true ∧
    ((delete_account dbC8 1 "2025-06-01 12:00:00").2.accounts.head?.map
        (fun a => (a.is_active, a.updated_at)))
      = some (false, "2025-06-01 12:00:00") ∧
    (dbC8.accounts.head?.map (fun a => (a.is_active, a.updated_at)))
      = some (true, "2025-01-01 00:00:00") ∧
    ("2025-06-01 12:00:00" : String) ≠ "2025-01-01 00:00:00" := by
  refine ⟨by decide, by decide, by decide, by decide⟩

/-- C8 as amended: `delete_account` fails (returning `false` and leaving the
store untouched, hence the account active) iff some non-deleted journal
entry references the account on either leg; when no such entry exists it
succeeds, leaves the journal and opening balances untouched, and rewrites
exactly the matching account rows with `is_active := false` and a fresh
`updated_at`, leaving every other account row unchanged. -/
theorem delete_account_spec (db : DB) (aid : Int) (now : String) :
    ((delete_account db aid now).1 = false ↔
      ∃ je ∈ db.entries, je.is_deleted = false ∧
        (je.debit_account_id = aid ∨ je.credit_account_id = aid)) ∧
    ((delete_account db aid now).1 = false → (delete_account db aid now).2 = db) ∧
    ((delete_account db aid now).1 = true →
      (delete_account db aid now).2.entries = db.entries ∧
      (delete_account db aid now).2.openings = db.openings ∧
      (delete_account db aid now).2.accounts = db.accounts.map (fun a =>
        if a.id = aid then { a with is_active := false, updated_at := now }
        else a)) := by
  by_cases h : (db.entries.filter (fun je =>
      (je.debit_account_id == aid || je.credit_account_id == aid) &&
      !je.is_deleted)).length > 0
  · have hres : delete_account db aid now = (false, db) := by
      simp only [delete_account, if_pos h]
    refine ⟨?_, fun _ => by rw [hres], fun hc => by rw [hres] at hc; simp at hc⟩
    rw [hres]
    simp only [true_iff]
    obtain ⟨je, hje⟩ := List.exists_mem_of_length_pos h
    have hmem := List.mem_filter.mp hje
    refine ⟨je, hmem.1, ?_, ?_⟩
    · have := (Bool.and_eq_true _ _ ▸ hmem.2).2
      simpa using this
    · have := (Bool.and_eq_true _ _ ▸ hmem.2).1
      rcases Bool.or_eq_true _ _ ▸ this with h1 | h1
      · exact Or.inl (by simpa using h1)
      · exact Or.inr (by simpa using h1)
  · have hres : delete_account db aid now = (true, { db with
        accounts := db.accounts.map (fun a =>
          if a.id == aid then { a with is_active := false, updated_at := now }
          else a) }) := by
      simp only [delete_account, if_neg h]
    refine ⟨?_, fun hc => by rw [hres] at hc; simp at hc, fun _ => ?_⟩
    · rw [hres]
      constructor
      · intro hc
        simp at hc
      · rintro ⟨je, hje, hdel, hleg⟩
        refine absurd (List.length_pos_of_mem (α := JournalEntry)
          (List.mem_filter.mpr ⟨hje, ?_⟩)) h
        rw [Bool.and_eq_true, Bool.or_eq_true]
        refine ⟨?_, by simp [hdel]⟩
        rcases hleg with h1 | h1
        · exact Or.inl (by simp [h1])
        · exact Or.inr (by simp [h1])
    · rw [hres]
      refine ⟨rfl, rfl, ?_⟩
      simp only
      refine List.map_congr_left fun a _ => ?_
      by_cases ha : a.id = aid
      · simp [ha]
      · simp [ha]

/-- Witness for the amended C8: on `dbC8`, deactivating account 2 (which a
live entry references) fails, and the failure leaves the store unchanged. -/
theorem delete_account_spec_witness :
    ((delete_account dbC8 2 "2025-06-01 12:00:00").1 = false ↔
      ∃ je ∈ dbC8.entries, je.is_deleted = false ∧
        (je.debit_account_id = 2 ∨ je.credit_account_id = 2)) ∧
    (delete_account dbC8 2 "2025-06-01 12:00:00").2 = dbC8 :=
  ⟨(delete_account_spec dbC8 2 "2025-06-01 12:00:00").1,
   (delete_account_spec dbC8 2 "2025-06-01 12:00:00").2.1 (by decide)⟩

/-! ## Journal entry creation (`create_journal_entry` /
`create_journal_entries_batch`, `models.py` lines 169–240) -/

/-- A calendar date as parsed by `datetime.date.fromisoformat`. -/
structure Date where
  year : Nat
  month : Nat
  day : Nat
deriving DecidableEq, Repr, Inhabited

/-- Gregorian leap-year rule. -/
def isLeapYear (y : Nat) : Bool := (y % 4 == 0 && y % 100 != 0) || y % 400 == 0

/-- Days in a month, for calendar validation. -/
def daysInMonth (y m : Nat) : Nat :=
  if m = 2 then (if isLeapYear y then 29 else 28)
  else if m = 4 ∨ m = 6 ∨ m = 9 ∨ m = 11 then 30
  else 31

/-- `datetime.date.fromisoformat`: accepts exactly `YYYY-MM-DD` with a valid
calendar date, raises (here: `none`) otherwise. -/
def parseIsoDate (s : String) : Option Date :=
  match splitSep '-' s.data [] with
  | [y, m, d] =>
    if y.length = 4 ∧ m.length = 2 ∧ d.length = 2 then
      match digitsToNat? y, digitsToNat? m, digitsToNat? d with
      | some yn, some mn, some dn =>
        if 1 ≤ mn ∧ mn ≤ 12 ∧ 1 ≤ dn ∧ dn ≤ daysInMonth yn mn then
          some ⟨yn, mn, dn⟩
        else none
      | _, _, _ => none
    else none
  | _ => none

/-- The entry dictionary passed to `create_journal_entry`; `none` models an
absent key (and, for the truthiness checks below, any falsy value). -/
structure EntryInput where
  amount : Int := 0
  tax_classification : Option String := none
  debit_account_id : Option Int := none
  debit_account : Option String := none
  credit_account_id : Option Int := none
  credit_account : Option String := none
  entry_date : Option String := none
  date : Option String := none
  counterparty : Option String := none
  memo : Option String := none
  evidence_url : Option String := none
  source : Option String := none
deriving DecidableEq, Repr, Inhabited

/-- Python truthiness of an optional integer (`None` and `0` are falsy). -/
def truthyInt : Option Int → Bool
  | some i => i != 0
  | none => false

/-- Python truthiness of an optional string (`None` and `''` are falsy). -/
def truthyStr : Option String → Bool
  | some s => !(s == "")
  | none => false

/-- `_resolve_account_id` (`models.py` lines 873–888): a truthy explicit id
wins; otherwise a truthy name is looked up among active accounts, falling
back to the active account named `雑費`; otherwise `None`. -/
def resolveAccountId (accounts : List Account) (account_id : Option Int)
    (account_name : Option String) : Option Int :=
  if truthyInt account_id then account_id
  else if truthyStr account_name then
    match accounts.find? (fun a => a.name == strTrim (account_name.getD "") &&
        a.is_active) with
    | some row => some row.id
    | none =>
      match accounts.find? (fun a => a.name == "雑費" && a.is_active) with
      | some row => some row.id
      | none => none
  else none

/-- The past-date adjustment of `create_journal_entry` (lines 183–195):
dates parsing to a year before `current_year` are replaced by January 1 of
`current_year` and the original date is recorded in the memo. -/
def adjustDateMemo (entry_date memo : String) (current_year : Nat) :
    String × String :=
  if entry_date ≠ "" then
    match parseIsoDate entry_date with
    | some d =>
      if d.year < current_year then
        (toString current_year ++ "-01-01",
         strTrim ("[実際日付:" ++ entry_date ++ "] " ++ memo))
      else (entry_date, memo)
    | none => (entry_date, memo)
  else (entry_date, memo)

/-- `create_journal_entry(entry, user_id)`; `current_year` stands for
`datetime.date.today().year`.  The `ValueError` on unresolvable accounts is
the `Except.error` case, raised before anything is written (the Python
`rollback` therefore leaves the store unchanged); on success the committed
row and its id are returned. -/
def create_journal_entry (db : DB) (entry : EntryInput) (user_id : Int)
    (current_year : Nat) : Except String (Int × DB) :=
  let amount := entry.amount
  let tax_class := entry.tax_classification.getD "10%"
  let tax_amount := calculate_tax_amount amount tax_class
  let debit_id := resolveAccountId db.accounts entry.debit_account_id entry.debit_account
  let credit_id := resolveAccountId db.accounts entry.credit_account_id entry.credit_account
  if !truthyInt debit_id || !truthyInt credit_id then
    Except.error "Invalid account"
  else
    let entry_date0 := entry.entry_date.getD (entry.date.getD "")
    let memo0 := entry.memo.getD ""
    let dm := adjustDateMemo entry_date0 memo0 current_year
    let je : JournalEntry := {
      id := db.next_id, user_id := user_id, entry_date := dm.1,
      debit_account_id := debit_id.getD 0, credit_account_id := credit_id.getD 0,
      amount := amount, tax_classification := tax_class, tax_amount := tax_amount,
      counterparty := entry.counterparty.getD "", memo := dm.2,
      evidence_url := entry.evidence_url.getD "", source := entry.source.getD "manual",
      is_deleted := false }
    Except.ok (db.next_id,
      { db with entries := db.entries ++ [je], next_id := db.next_id + 1 })

/-- `create_journal_entries_batch`: per-item try/except, appending the new
id on success and `None` on failure, never aborting the loop. -/
def create_journal_entries_batch (db : DB) (entries : List EntryInput)
    (user_id : Int) (current_year : Nat) : List (Option Int) × DB :=
  match entries with
  | [] => ([], db)
  | e :: rest =>
    match create_journal_entry db e user_id current_year with
    | Except.ok (new_id, db') =>
      let r := create_journal_entries_batch db' rest user_id current_year
      (some new_id :: r.1, r.2)
    | Except.error _ =>
      let r := create_journal_entries_batch db rest user_id current_year
      (none :: r.1, r.2)

/-- The store state after the first `n` items of a batch have been
processed (success or not). -/
def batchStateAfter (db : DB) (entries : List EntryInput) (user_id : Int)
    (current_year : Nat) : DB :=
  match entries with
  | [] => db
  | e :: rest =>
    match create_journal_entry db e user_id current_year with
    | Except.ok (_, db') => batchStateAfter db' rest user_id current_year
    | Except.error _ => batchStateAfter db rest user_id current_year

/-! ## Journal listing (`get_journal_entries`, `models.py` lines 243–309) -/

/-- Does `sub` lead (begin) `l`? -/
def leadsWith : List Char → List Char → Bool
  | [], _ => true
  | _ :: _, [] => false
  | a :: as, b :: bs => a == b && leadsWith as bs

/-- Substring test on character lists. -/
def hasSubList (sub : List Char) : List Char → Bool
  | [] => leadsWith sub []
  | c :: rest => leadsWith sub (c :: rest) || hasSubList sub rest

/-- SQL `LIKE '%sub%'` as a plain substring test (the application never puts
wildcard metacharacters in the pattern). -/
def strContainsB (s sub : String) : Bool := hasSubList sub.data s.data

/-- The filter dictionary of `get_journal_entries`; `none` models an absent
key or a falsy value (the code guards every condition with truthiness). -/
structure JournalFilters where
  start_date : Option String := none
  end_date : Option String := none
  account_id : Option Int := none
  counterparty : Option String := none
  memo : Option String := none
  amount_min : Option Int := none
  amount_max : Option Int := none
  page : Option Int := none
  per_page : Option Int := none
deriving DecidableEq, Repr, Inhabited

/-- The dynamically-built `WHERE` clause of `get_journal_entries`. -/
def journalFilterPred (f : JournalFilters) (user_id : Int)
    (je : JournalEntry) : Bool :=
  !je.is_deleted && je.user_id == user_id &&
  (if truthyStr f.start_date then strLeB (f.start_date.getD "") je.entry_date else true) &&
  (if truthyStr f.end_date then strLeB je.entry_date (f.end_date.getD "") else true) &&
  (if truthyInt f.account_id then
    (je.debit_account_id == f.account_id.getD 0 ||
     je.credit_account_id == f.account_id.getD 0) else true) &&
  (if truthyStr f.counterparty then strContainsB je.counterparty (f.counterparty.getD "") else true) &&
  (if truthyStr f.memo then strContainsB je.memo (f.memo.getD "") else true) &&
  (if truthyInt f.amount_min then decide (f.amount_min.getD 0 ≤ je.amount) else true) &&
  (if truthyInt f.amount_max then decide (je.amount ≤ f.amount_max.getD 0) else true)

/-- One row of the `get_journal_entries` listing (selected columns plus the
joined account names/codes). -/
structure JournalListRow where
  id : Int
  entry_date : String
  amount : Int
  tax_classification : String
  tax_amount : Int
  counterparty : String
  memo : String
  evidence_url : String
  source : String
  debit_account_id : Int
  credit_account_id : Int
  debit_account : String
  debit_code : String
  credit_account : String
  credit_code : String
deriving DecidableEq, Repr, Inhabited

/-- The paginated result of `get_journal_entries`. -/
structure JournalListResult where
  entries : List JournalListRow
  total : Nat
  page : Int
  per_page : Int
deriving DecidableEq, Repr, Inhabited

/-- `get_journal_entries(filters, user_id)`: count, paginate (`page ≥ 1`,
`1 ≤ per_page ≤ 100`, default 20), inner-join both legs onto
`accounts_master`, order by `(entry_date DESC, id DESC)`. -/
def get_journal_entries (db : DB) (f : JournalFilters) (user_id : Int) :
    JournalListResult :=
  let matching := db.entries.filter (journalFilterPred f user_id)
  let total := matching.length
  let page := max 1 (f.page.getD 1)
  let per_page := min 100 (max 1 (f.per_page.getD 20))
  let offset := (page - 1) * per_page
  let sorted := sortByLe (fun a b =>
    if strLtB b.entry_date a.entry_date then true
    else if strLtB a.entry_date b.entry_date then false
    else decide (b.id ≤ a.id)) matching
  let joined := sorted.filterMap (fun je =>
    match db.accounts.find? (fun a => a.id == je.debit_account_id),
          db.accounts.find? (fun a => a.id == je.credit_account_id) with
    | some da, some ca => some {
        id := je.id, entry_date := je.entry_date, amount := je.amount,
        tax_classification := je.tax_classification, tax_amount := je.tax_amount,
        counterparty := je.counterparty, memo := je.memo,
        evidence_url := je.evidence_url, source := je.source,
        debit_account_id := je.debit_account_id,
        credit_account_id := je.credit_account_id,
        debit_account := da.name, debit_code := da.code,
        credit_account := ca.name, credit_code := ca.code }
    | _, _ => none)
  { entries := (joined.drop offset.toNat).take per_page.toNat,
    total := total, page := page, per_page := per_page }

/-- C10: whenever `create_journal_entry` commits a row, the stored date and
memo are the adjusted pair, and the adjustment replaces a parseable date of
an earlier year by January 1 of the current year while prefixing
`[実際日付:<original>]` to the memo, and leaves current/future-year dates
and unparseable dates (with their memos) unchanged. -/
theorem create_journal_entry_date_shift :
    (∀ (db : DB) (entry : EntryInput) (u : Int) (cy : Nat) (idst : Int × DB),
      create_journal_entry db entry u cy = Except.ok idst →
      (idst.2.entries.getLast?.map (fun je => (je.entry_date, je.memo))) =
        some (adjustDateMemo (entry.entry_date.getD (entry.date.getD ""))
          (entry.memo.getD "") cy)) ∧
    (∀ raw memo cy d, parseIsoDate raw = some d → d.year < cy →
      adjustDateMemo raw memo cy =
        (toString cy ++ "-01-01", strTrim ("[実際日付:" ++ raw ++ "] " ++ memo))) ∧
    (∀ raw memo cy d, parseIsoDate raw = some d → ¬ d.year < cy →
      adjustDateMemo raw memo cy = (raw, memo)) ∧
    (∀ raw memo cy, parseIsoDate raw = none →
      adjustDateMemo raw memo cy = (raw, memo)) := by
  refine ⟨?_, ?_, ?_, ?_⟩
  · intro db entry u cy idst h
    simp only [create_journal_entry] at h
    split at h
    · exact absurd h (by simp)
    · obtain rfl := Except.ok.inj h
      simp
  · intro raw memo cy d hp hy
    have hraw : raw ≠ "" := by
      intro h0
      rw [h0, show parseIsoDate "" = none from by decide] at hp
      exact Option.noConfusion hp
    simp [adjustDateMemo, hraw, hp, hy]
  · intro raw memo cy d hp hy
    have hraw : raw ≠ "" := by
      intro h0
      rw [h0, show parseIsoDate "" = none from by decide] at hp
      exact Option.noConfusion hp
    simp [adjustDateMemo, hraw, hp, hy]
  · intro raw memo cy hp
    by_cases hraw : raw = ""
    · simp [adjustDateMemo, hraw]
    · simp [adjustDateMemo, hraw, hp]

/-- A store for exercising entry creation: two active accounts and no
`雑費` fallback account. -/
def dbC10 : DB :=
  { accounts := [{ id := 1, code := "100", name := "現金", account_type := "資産",
                   tax_default := "10%", is_active := true, display_order := 100,
                   updated_at := "" },
                 { id := 2, code := "400", name := "売上", account_type := "収益",
                   tax_default := "10%", is_active := true, display_order := 400,
                   updated_at := "" }],
    entries := [], openings := [], next_id := 10 }

/-- An input dated in a past year (2024 against current year 2026). -/
def entryC10 : EntryInput :=
  { amount := 1000, debit_account_id := some 1, credit_account_id := some 2,
    entry_date := some "2024-05-06", memo := some "m" }

/-- Witness for C10: creating `entryC10` in 2026 succeeds, stores the entry
dated `2026-01-01` with the original date recorded in the memo, as the
adjustment computes. -/
theorem create_journal_entry_date_shift_witness :
    ((create_journal_entry dbC10 entryC10 0 2026).toOption.map
        (fun p => p.2.entries.getLast?.map (fun je => (je.entry_date, je.memo)))) =
      some (some (adjustDateMemo "2024-05-06" "m" 2026)) ∧
    adjustDateMemo "2024-05-06" "m" 2026 =
      ("2026-01-01", "[実際日付:2024-05-06] m") := by
  constructor
  · cases hcase : create_journal_entry dbC10 entryC10 0 2026 with
    | error e =>
      have h3 : (create_journal_entry dbC10 entryC10 0 2026).toOption ≠ none := by
        decide
      refine absurd ?_ h3
      rw [hcase]
      rfl
    | ok idst =>
      have h := create_journal_entry_date_shift.1 dbC10 entryC10 0 2026 idst hcase
      simp only [Except.toOption, Option.map_some']
      rw [h]
      rfl
  · have h := create_journal_entry_date_shift.2.1 "2024-05-06" "m" 2026
      ⟨2024, 5, 6⟩ (by decide) (by decide)
    rw [h]
    decide

theorem create_journal_entry_entries_mono (db : DB) (entry : EntryInput)
    (u : Int) (cy : Nat) (nid : Int) (db' : DB)
    (h : create_journal_entry db entry u cy = Except.ok (nid, db')) :
    ∀ je ∈ db.entries, je ∈ db'.entries := by
  simp only [create_journal_entry] at h
  split at h
  · exact absurd h (by simp)
  · obtain h' := Except.ok.inj h
    cases h'
    intro je hje
    exact List.mem_append_left _ hje

/-- A store for the batch scenario: no `雑費` fallback account is
configured, so an unknown account name makes an entry fail. -/
def dbC9 : DB :=
  { accounts := [{ id := 1, code := "100", name := "現金", account_type := "資産",
                   tax_default := "10%", is_active := true, display_order := 100,
                   updated_at := "" },
                 { id := 2, code := "400", name := "売上", account_type := "収益",
                   tax_default := "10%", is_active := true, display_order := 400,
                   updated_at := "" }],
    entries := [], openings := [], next_id := 10 }

/-- Three batch inputs: valid, unknown debit account name, valid. -/
def esC9 : List EntryInput :=
  [{ amount := 100, debit_account_id := some 1, credit_account_id := some 2,
     entry_date := some "2026-03-01", tax_classification := some "10%" },
   { amount := 200, debit_account := some "未知勘定", credit_account_id := some 2,
     entry_date := some "2026-03-01", tax_classification := some "10%" },
   { amount := 300, debit_account_id := some 1, credit_account_id := some 2,
     entry_date := some "2026-03-02", tax_classification := some "10%" }]

/-- C9: the batch result has one slot per input; the i-th slot holds the
new id exactly when creating the i-th entry from the state left by the
first i items succeeds, and `None` when it raises (the failure leaving the
state unchanged, so later entries are processed as if it had not happened);
entries already committed are never rolled back (the store only grows); and
on the concrete three-entry batch with one unknown account and no fallback,
the result is 2 successes and 1 failure with both successful entries
persisted and returned by `get_journal_entries`. -/
theorem create_journal_entries_batch_spec :
    (∀ (db : DB) (es : List EntryInput) (u : Int) (cy : Nat),
      (create_journal_entries_batch db es u cy).1.length = es.length) ∧
    (∀ (db : DB) (es : List EntryInput) (u : Int) (cy : Nat) (i : Nat)
        (e : EntryInput), es[i]? = some e →
      (create_journal_entries_batch db es u cy).1[i]? =
        some ((create_journal_entry (batchStateAfter db (es.take i) u cy)
          e u cy).toOption.map Prod.fst)) ∧
    (∀ (db : DB) (es : List EntryInput) (u : Int) (cy : Nat)
        (je : JournalEntry), je ∈ db.entries →
      je ∈ (create_journal_entries_batch db es u cy).2.entries) ∧
    (create_journal_entries_batch dbC9 esC9 0 2026).1 = [some 10, none, some 11] ∧
    (get_journal_entries (create_journal_entries_batch dbC9 esC9 0 2026).2
      {} 0).total = 2 ∧
    ((get_journal_entries (create_journal_entries_batch dbC9 esC9 0 2026).2
      {} 0).entries.map (fun r => r.id)) = [11, 10] := by
  refine ⟨?_, ?_, ?_, by decide, by decide, by decide⟩
  · intro db es u cy
    induction es generalizing db with
    | nil => simp [create_journal_entries_batch]
    | cons a rest ih =>
      simp only [create_journal_entries_batch]
      cases hc : create_journal_entry db a u cy with
      | ok p =>
        obtain ⟨nid, db'⟩ := p
        simp [ih db']
      | error err => simp [ih db]
  · intro db es u cy
    induction es generalizing db with
    | nil => intro i e h; simp at h
    | cons a rest ih =>
      intro i e h
      cases i with
      | zero =>
        simp only [List.getElem?_cons_zero, Option.some.injEq] at h
        subst h
        simp only [create_journal_entries_batch, List.take_zero, batchStateAfter]
        cases hc : create_journal_entry db a u cy with
        | ok p =>
          obtain ⟨nid, db'⟩ := p
          simp [hc, Except.toOption]
        | error err => simp [hc, Except.toOption]
      | succ j =>
        simp only [List.getElem?_cons_succ] at h
        simp only [create_journal_entries_batch, List.take_succ_cons, batchStateAfter]
        cases hc : create_journal_entry db a u cy with
        | ok p =>
          obtain ⟨nid, db'⟩ := p
          simpa [hc] using ih db' j e h
        | error err =>
          simpa [hc] using ih db j e h
  · intro db es u cy je
    induction es generalizing db with
    | nil =>
      intro hje
      simpa [create_journal_entries_batch] using hje
    | cons a rest ih =>
      intro hje
      simp only [create_journal_entries_batch]
      cases hc : create_journal_entry db a u cy with
      | ok p =>
        obtain ⟨nid, db'⟩ := p
        simpa [hc] using ih db'
          (create_journal_entry_entries_mono db a u cy nid db' hc je hje)
      | error err =>
        simpa [hc] using ih db hje

/-- Witness for C9: on the concrete batch, slot 1 (the unknown-account
entry) is the failure marker computed by re-running the creation from the
intermediate state. -/
theorem create_journal_entries_batch_spec_witness :
    (create_journal_entries_batch dbC9 esC9 0 2026).1[1]? =
      some ((create_journal_entry (batchStateAfter dbC9 (esC9.take 1) 0 2026)
        (esC9[1]!) 0 2026).toOption.map Prod.fst) :=
  create_journal_entries_batch_spec.2.1 dbC9 esC9 0 2026 1 (esC9[1]!) (by decide)

/-! ## Fixed assets and depreciation (`calculate_depreciation`,
`models.py` lines 1395–1578) -/

/-- A row of `fixed_assets`; dates are the stored `YYYY-MM-DD` strings,
empty when unset, exactly as the Python code reads them. -/
structure FixedAsset where
  id : Int
  user_id : Int
  asset_name : String
  acquisition_date : String
  useful_life : Int
  acquisition_cost : Int
  depreciation_method : String := "定額法"
  notes : String := ""
  disposal_type : String := ""
  disposal_date : String := ""
  disposal_price : Int := 0
  is_deleted : Bool := false
deriving DecidableEq, Repr, Inhabited

/-- `date.split('-')` followed by `int(parts[0])` /
`int(parts[1]) if len(parts) > 1 else default`. -/
def parseYM (s : String) (defMonth : Nat) : Nat × Nat :=
  let parts := splitSep '-' s.data []
  (toNatD (parts.getD 0 []),
   if parts.length > 1 then toNatD (parts.getD 1 []) else defMonth)

/-- The disposal remark of a schedule row, as structured data (the Python
code renders it as formatted text; the numbers are what matter). -/
inductive DispRemark where
  | noRemark : DispRemark
  | retired (loss : Int) : DispRemark
  | retiredDone : DispRemark
  | sold (price gainLoss : Int) : DispRemark
deriving DecidableEq, Repr, Inhabited

/-- One row of the depreciation schedule.  The floating-point
`annual_rate = round(1/life, 4)` disclosure field is not modelled. -/
structure DepRow where
  id : Int
  asset_name : String
  acquisition_date : String
  acquisition_cost : Int
  useful_life : Int
  depreciation_method : String
  notes : String
  opening_book_value : Int
  depreciation_amount : Int
  closing_book_value : Int
  disposal_type : String
  disposal_remark : DispRemark
deriving DecidableEq, Repr, Inhabited

/-- The `for yr in range(acq_year, fy)` replay (lines 1448–1459) that
reconstructs the depreciation recognised in earlier fiscal years: the
acquisition year is prorated from the acquisition month, later years take
the full annual amount, each year is capped at the depreciable base, and
the walk stops once the base is reached. -/
def cumLoop (annual depreciable : Int) (acqYear acqMonth : Nat) :
    List Nat → Int → Int
  | [], acc => acc
  | yr :: rest, acc =>
    let yr_dep := if yr = acqYear then
        (annual * (12 - (acqMonth : Int) + 1)).fdiv 12
      else annual
    let yr_dep := if acc + yr_dep ≥ depreciable then depreciable - acc else yr_dep
    let acc' := acc + yr_dep
    if acc' ≥ depreciable then acc'
    else cumLoop annual depreciable acqYear acqMonth rest acc'

/-- The per-asset body of `calculate_depreciation` (lines 1413–1576);
`none` models the two `continue` skips.  Python `//` is `Int.fdiv`
(division by a zero `useful_life` raises in Python; the claims assume a
positive life). -/
def depRow (asset : FixedAsset) (fy : Nat) : Option DepRow :=
  let cost := asset.acquisition_cost
  let life := asset.useful_life
  let p := parseYM asset.acquisition_date 1
  let acq_year := p.1
  let acq_month := p.2
  let q := if asset.disposal_date ≠ "" ∧ asset.disposal_type ≠ "" then
      parseYM asset.disposal_date 12
    else (0, 12)
  let disp_year := q.1
  let disp_month := q.2
  if acq_year > fy then none
  else if disp_year ≠ 0 ∧ disp_year < fy then none
  else
    let depreciable := cost - 1
    let annual_amount := depreciable.fdiv life
    let cumulative_before := cumLoop annual_amount depreciable acq_year acq_month
      (List.range' acq_year (fy - acq_year)) 0
    let opening_bv := cost - cumulative_before
    if cumulative_before ≥ depreciable ∧
        ¬(disp_year = fy ∧ asset.disposal_type ≠ "") then
      some { id := asset.id, asset_name := asset.asset_name,
             acquisition_date := asset.acquisition_date, acquisition_cost := cost,
             useful_life := life, depreciation_method := asset.depreciation_method,
             notes := asset.notes, opening_book_value := 1,
             depreciation_amount := 0, closing_book_value := 1,
             disposal_type := "", disposal_remark := .noRemark }
    else if disp_year = fy ∧ asset.disposal_type ≠ "" then
      let months_used : Int :=
        if fy = acq_year then
          let m := (disp_month : Int) - (acq_month : Int) + 1
          if m < 1 then 1 else m
        else (disp_month : Int)
      let this_year_dep0 := (annual_amount * months_used).fdiv 12
      let remaining := depreciable - cumulative_before
      let this_year_dep := if this_year_dep0 > remaining then remaining
        else this_year_dep0
      let bv_after_dep := opening_bv - this_year_dep
      if asset.disposal_type = "除却" then
        some { id := asset.id, asset_name := asset.asset_name,
               acquisition_date := asset.acquisition_date, acquisition_cost := cost,
               useful_life := life, depreciation_method := asset.depreciation_method,
               notes := asset.notes, opening_book_value := opening_bv,
               depreciation_amount := this_year_dep, closing_book_value := 0,
               disposal_type := "除却",
               disposal_remark := if bv_after_dep ≤ 1 then .retiredDone
                 else .retired bv_after_dep }
      else if asset.disposal_type = "売却" then
        some { id := asset.id, asset_name := asset.asset_name,
               acquisition_date := asset.acquisition_date, acquisition_cost := cost,
               useful_life := life, depreciation_method := asset.depreciation_method,
               notes := asset.notes, opening_book_value := opening_bv,
               depreciation_amount := this_year_dep, closing_book_value := 0,
               disposal_type := "売却",
               disposal_remark := .sold asset.disposal_price
                 (asset.disposal_price - bv_after_dep) }
      else none
    else
      let this_year_dep0 := if fy = acq_year then
          (annual_amount * (12 - (acq_month : Int) + 1)).fdiv 12
        else annual_amount
      let remaining := depreciable - cumulative_before
      let this_year_dep := if this_year_dep0 > remaining then remaining
        else this_year_dep0
      some { id := asset.id, asset_name := asset.asset_name,
             acquisition_date := asset.acquisition_date, acquisition_cost := cost,
             useful_life := life, depreciation_method := asset.depreciation_method,
             notes := asset.notes, opening_book_value := opening_bv,
             depreciation_amount := this_year_dep,
             closing_book_value := cost - cumulative_before - this_year_dep,
             disposal_type := "", disposal_remark := .noRemark }

/-- `get_fixed_assets(user_id)`: the user's non-deleted assets ordered by
acquisition date descending. -/
def get_fixed_assets (assets : List FixedAsset) (user_id : Int) :
    List FixedAsset :=
  sortByLe (fun a b => strLeB b.acquisition_date a.acquisition_date)
    (assets.filter (fun a => a.user_id == user_id && !a.is_deleted))

/-- `calculate_depreciation(user_id, fiscal_year)`. -/
def calculate_depreciation (assets : List FixedAsset) (user_id : Int)
    (fiscal_year : String) : List DepRow :=
  (get_fixed_assets assets user_id).filterMap
    (fun asset => depRow asset (toNatD fiscal_year.data))

/-- Scenario B's asset: cost 600001, five-year life, acquired April 2020. -/
def assetB : FixedAsset :=
  { id := 1, user_id := 0, asset_name := "車両",
    acquisition_date := "2020-04-01", useful_life := 5,
    acquisition_cost := 600001 }

/-- Counterexample to C5: in fiscal year Y+4 (= 2024 for `assetB`) the code
reports a full 120000 of depreciation and closing book value 30001, not the
claimed capped 30000 / closing 1 (which only happen in year Y+5). -/
theorem depreciation_scenario_b_counterexample :
    ((calculate_depreciation [assetB] 0 "2024").map
      (fun r => (r.depreciation_amount, r.closing_book_value))) = [(120000, 30001)] ∧
    ¬ ((calculate_depreciation [assetB] 0 "2024").map
      (fun r => (r.depreciation_amount, r.closing_book_value))) = [(30000, 1)] := by
  refine ⟨by decide, by decide⟩

/-- The year walk after the acquisition year: full annual amounts, capped. -/
def cumRest (annual depreciable : Int) : Nat → Int → Int
  | 0, acc => acc
  | k + 1, acc =>
    let yr_dep := if acc + annual ≥ depreciable then depreciable - acc else annual
    let acc' := acc + yr_dep
    if acc' ≥ depreciable then acc' else cumRest annual depreciable k acc'

theorem cumLoop_shift (annual depreciable : Int) (Y m : Nat) :
    ∀ (k s : Nat) (acc : Int), Y < s →
      cumLoop annual depreciable Y m (List.range' s k) acc =
        cumRest annual depreciable k acc := by
  intro k
  induction k with
  | zero => intro s acc _; simp [List.range', cumLoop, cumRest]
  | succ n ih =>
    intro s acc hs
    rw [List.range'_succ]
    simp only [cumLoop, cumRest, if_neg (show ¬ s = Y from by omega)]
    split
    · split
      · rfl
      · exact ih (s + 1) _ (by omega)
    · exact ih (s + 1) _ (by omega)

theorem cumLoop_acq_cons (Y k : Nat) :
    cumLoop 120000 600000 Y 4 (Y :: List.range' (Y + 1) k) 0 =
      cumRest 120000 600000 k 90000 := by
  simp only [cumLoop, if_pos rfl,
    show ((120000 : Int) * (12 - ((4 : Nat) : Int) + 1)).fdiv 12 = 90000 from by decide]
  norm_num
  exact cumLoop_shift 120000 600000 Y 4 k (Y + 1) 90000 (by omega)

theorem cumLoop_val_1 (Y : Nat) :
    cumLoop 120000 600000 Y 4 [Y] 0 = 90000 := by
  rw [show [Y] = Y :: List.range' (Y + 1) 0 from by simp [List.range']]
  rw [cumLoop_acq_cons]
  decide

theorem cumLoop_val_2 (Y : Nat) :
    cumLoop 120000 600000 Y 4 (List.range' Y 2) 0 = 210000 := by
  rw [List.range'_succ, cumLoop_acq_cons]
  decide

theorem cumLoop_val_3 (Y : Nat) :
    cumLoop 120000 600000 Y 4 (List.range' Y 3) 0 = 330000 := by
  rw [List.range'_succ, cumLoop_acq_cons]
  decide

theorem cumLoop_val_4 (Y : Nat) :
    cumLoop 120000 600000 Y 4 (List.range' Y 4) 0 = 450000 := by
  rw [List.range'_succ, cumLoop_acq_cons]
  decide

theorem cumLoop_val_5 (Y : Nat) :
    cumLoop 120000 600000 Y 4 (List.range' Y 5) 0 = 570000 := by
  rw [List.range'_succ, cumLoop_acq_cons]
  decide

/-- C5 as amended: for an asset of cost 600001 and five-year life acquired
in month 4 of year Y with no disposal, the schedule is: year Y depreciation
90000 (closing 510001); years Y+1..Y+4 depreciation 120000 each (closing
30001 after Y+4); and year Y+5 depreciation 30000 capped, closing at the
1-yen memorandum value.  (The claim ended the schedule one year early.) -/
theorem depreciation_no_disposal_600001 (asset : FixedAsset) (Y : Nat)
    (hp : parseYM asset.acquisition_date 1 = (Y, 4))
    (hcost : asset.acquisition_cost = 600001)
    (hlife : asset.useful_life = 5)
    (hdt : asset.disposal_type = "") :
    ((depRow asset Y).map (fun r =>
        (r.opening_book_value, r.depreciation_amount, r.closing_book_value)))
      = some (600001, 90000, 510001) ∧
    ((depRow asset (Y + 1)).map (fun r =>
        (r.opening_book_value, r.depreciation_amount, r.closing_book_value)))
      = some (510001, 120000, 390001) ∧
    ((depRow asset (Y + 2)).map (fun r =>
        (r.opening_book_value, r.depreciation_amount, r.closing_book_value)))
      = some (390001, 120000, 270001) ∧
    ((depRow asset (Y + 3)).map (fun r =>
        (r.opening_book_value, r.depreciation_amount, r.closing_book_value)))
      = some (270001, 120000, 150001) ∧
    ((depRow asset (Y + 4)).map (fun r =>
        (r.opening_book_value, r.depreciation_amount, r.closing_book_value)))
      = some (150001, 120000, 30001) ∧
    ((depRow asset (Y + 5)).map (fun r =>
        (r.opening_book_value, r.depreciation_amount, r.closing_book_value)))
      = some (30001, 30000, 1) := by
  refine ⟨?_, ?_, ?_, ?_, ?_, ?_⟩
  · simp [depRow, hp, hcost, hlife, hdt, List.range', cumLoop,
      show ((600001 : Int) - 1).fdiv 5 = 120000 from by decide,
      show ((120000 : Int) * (12 - ((4 : Nat) : Int) + 1)).fdiv 12 = 90000 from by decide,
      show ((120000 : Int) * 9).fdiv 12 = 90000 from by decide]
  · simp [depRow, hp, hcost, hlife, hdt,
      show Y + 1 - Y = 1 from by omega, cumLoop_val_1 Y,
      show ((600001 : Int) - 1).fdiv 5 = 120000 from by decide,
      show ¬ (Y + 1 = Y) from by omega]
  · simp [depRow, hp, hcost, hlife, hdt,
      show Y + 2 - Y = 2 from by omega, cumLoop_val_2 Y,
      show ((600001 : Int) - 1).fdiv 5 = 120000 from by decide,
      show ¬ (Y + 2 = Y) from by omega]
  · simp [depRow, hp, hcost, hlife, hdt,
      show Y + 3 - Y = 3 from by omega, cumLoop_val_3 Y,
      show ((600001 : Int) - 1).fdiv 5 = 120000 from by decide,
      show ¬ (Y + 3 = Y) from by omega]
  · simp [depRow, hp, hcost, hlife, hdt,
      show Y + 4 - Y = 4 from by omega, cumLoop_val_4 Y,
      show ((600001 : Int) - 1).fdiv 5 = 120000 from by decide,
      show ¬ (Y + 4 = Y) from by omega]
  · simp [depRow, hp, hcost, hlife, hdt,
      show Y + 5 - Y = 5 from by omega, cumLoop_val_5 Y,
      show ((600001 : Int) - 1).fdiv 5 = 120000 from by decide,
      show ¬ (Y + 5 = Y) from by omega]

/-- Scenario C's asset: cost 1200001, four-year life, acquired January
2023, sold June 2023 for proceeds 700000. -/
def assetC : FixedAsset :=
  { id := 2, user_id := 0, asset_name := "機械", acquisition_date := "2023-01-15",
    useful_life := 4, acquisition_cost := 1200001, disposal_type := "売却",
    disposal_date := "2023-06-30", disposal_price := 700000 }

/-- C6: for every asset whose recorded disposal (retirement or sale) falls
in the requested fiscal year and that is not skipped, the schedule row has
`months_used = disposal_month - acquisition_month + 1` (minimum 1) when the
asset was acquired in that same year and `disposal_month` otherwise,
`depreciation_amount = min(annual * months_used // 12, depreciable_base -
cumulative_before)`, `closing_book_value = 0`, and for a sale the remark
reports `gain_or_loss = proceeds - (opening_book_value -
depreciation_amount)`; concretely, Scenario C yields depreciation 150000
and a loss of 350001. -/
theorem depreciation_disposal_spec :
    (∀ (asset : FixedAsset) (fy ay am dm : Nat),
      parseYM asset.acquisition_date 1 = (ay, am) →
      parseYM asset.disposal_date 12 = (fy, dm) →
      asset.disposal_date ≠ "" → ay ≤ fy → 0 < asset.useful_life →
      (asset.disposal_type = "除却" ∨ asset.disposal_type = "売却") →
      ∃ row : DepRow, depRow asset fy = some row ∧
        row.opening_book_value = asset.acquisition_cost -
          cumLoop ((asset.acquisition_cost - 1).fdiv asset.useful_life)
            (asset.acquisition_cost - 1) ay am (List.range' ay (fy - ay)) 0 ∧
        row.depreciation_amount =
          min (((asset.acquisition_cost - 1).fdiv asset.useful_life *
                (if fy = ay then max ((dm : Int) - (am : Int) + 1) 1
                 else (dm : Int))).fdiv 12)
            ((asset.acquisition_cost - 1) -
              cumLoop ((asset.acquisition_cost - 1).fdiv asset.useful_life)
                (asset.acquisition_cost - 1) ay am (List.range' ay (fy - ay)) 0) ∧
        row.closing_book_value = 0 ∧
        (asset.disposal_type = "売却" →
          row.disposal_remark = DispRemark.sold asset.disposal_price
            (asset.disposal_price -
              (row.opening_book_value - row.depreciation_amount)))) ∧
    ((calculate_depreciation [assetC] 0 "2023").map
      (fun r => (r.depreciation_amount, r.closing_book_value, r.disposal_remark)))
      = [(150000, 0, DispRemark.sold 700000 (-350001))] := by
  constructor
  · intro asset fy ay am dm hpa hpd hdd hay hlife hdisj
    have hne : asset.disposal_type ≠ "" := by
      rcases hdisj with h | h <;> rw [h] <;> decide
    have hq1 : (if asset.disposal_date ≠ "" ∧ asset.disposal_type ≠ "" then
        parseYM asset.disposal_date 12 else ((0 : Nat), (12 : Nat))).1 = fy := by
      rw [if_pos ⟨hdd, hne⟩, hpd]
    have hq2 : (if asset.disposal_date ≠ "" ∧ asset.disposal_type ≠ "" then
        parseYM asset.disposal_date 12 else ((0 : Nat), (12 : Nat))).2 = dm := by
      rw [if_pos ⟨hdd, hne⟩, hpd]
    have hpa1 : (parseYM asset.acquisition_date 1).1 = ay := by rw [hpa]
    have hpa2 : (parseYM asset.acquisition_date 1).2 = am := by rw [hpa]
    have hmax : ∀ x : Int, (if x < 1 then (1 : Int) else x) = max x 1 := by
      intro x; split <;> omega
    have hmin : ∀ a b : Int, (if a > b then b else a) = min a b := by
      intro a b; split <;> omega
    rcases hdisj with hdt | hdt
    · simp only [depRow, hpa1, hpa2, hq1, hq2]
      rw [if_neg (by omega), if_neg (by omega),
        if_neg (fun hcontra => hcontra.2 ⟨by trivial, hne⟩),
        if_pos (And.intro (by trivial) hne), hdt]
      rw [if_pos rfl]
      refine ⟨_, rfl, ?_, ?_, ?_, ?_⟩
      · rfl
      · by_cases hm : fy = ay
        · simp only [if_pos hm]
          rw [hmax, hmin]
        · simp only [if_neg hm]
          rw [hmin]
      · rfl
      · intro hcontra
        exact absurd hcontra (by decide)
    · simp only [depRow, hpa1, hpa2, hq1, hq2]
      rw [if_neg (by omega), if_neg (by omega),
        if_neg (fun hcontra => hcontra.2 ⟨by trivial, hne⟩),
        if_pos (And.intro (by trivial) hne), hdt]
      rw [if_neg (by decide), if_pos rfl]
      refine ⟨_, rfl, ?_, ?_, ?_, ?_⟩
      · rfl
      · by_cases hm : fy = ay
        · simp only [if_pos hm]
          rw [hmax, hmin]
        · simp only [if_neg hm]
          rw [hmin]
      · rfl
      · intro hok
        rfl
  · decide

/-- Fully depreciated before 2021 (cost 100001, life 5, acquired 2015). -/
def assetD : FixedAsset :=
  { id := 3, user_id := 0, asset_name := "PC", acquisition_date := "2015-04-01",
    useful_life := 5, acquisition_cost := 100001 }

/-- Acquired in 2022, after the requested fiscal year 2021. -/
def assetE : FixedAsset :=
  { id := 4, user_id := 0, asset_name := "机", acquisition_date := "2022-07-01",
    useful_life := 8, acquisition_cost := 240001 }

/-- Disposed (sold) in 2019, before the requested fiscal year 2021. -/
def assetF : FixedAsset :=
  { id := 5, user_id := 0, asset_name := "車", acquisition_date := "2016-01-10",
    useful_life := 4, acquisition_cost := 800001, disposal_type := "売却",
    disposal_date := "2019-06-15", disposal_price := 150000 }

/-- C7: an asset acquired after the requested fiscal year, or disposed in
a fiscal year strictly before it, produces no schedule row; an asset fully
depreciated before the requested year with no disposal falling in it (no
disposal at all, or one in a later year) produces a row with zero
depreciation and opening = closing = 1. -/
theorem depreciation_skip_and_done_spec :
    (∀ (asset : FixedAsset) (fy ay am : Nat),
      parseYM asset.acquisition_date 1 = (ay, am) → fy < ay →
      depRow asset fy = none) ∧
    (∀ (asset : FixedAsset) (fy dy dm : Nat),
      parseYM asset.disposal_date 12 = (dy, dm) →
      asset.disposal_date ≠ "" → asset.disposal_type ≠ "" →
      0 < dy → dy < fy →
      depRow asset fy = none) ∧
    (∀ (asset : FixedAsset) (fy ay am : Nat),
      parseYM asset.acquisition_date 1 = (ay, am) → ay ≤ fy →
      asset.disposal_type = "" →
      cumLoop ((asset.acquisition_cost - 1).fdiv asset.useful_life)
          (asset.acquisition_cost - 1) ay am (List.range' ay (fy - ay)) 0
        ≥ asset.acquisition_cost - 1 →
      ((depRow asset fy).map (fun r =>
        (r.opening_book_value, r.depreciation_amount, r.closing_book_value)))
        = some (1, 0, 1)) ∧
    (∀ (asset : FixedAsset) (fy ay am dy dm : Nat),
      parseYM asset.acquisition_date 1 = (ay, am) → ay ≤ fy →
      parseYM asset.disposal_date 12 = (dy, dm) →
      asset.disposal_date ≠ "" → asset.disposal_type ≠ "" →
      fy < dy →
      cumLoop ((asset.acquisition_cost - 1).fdiv asset.useful_life)
          (asset.acquisition_cost - 1) ay am (List.range' ay (fy - ay)) 0
        ≥ asset.acquisition_cost - 1 →
      ((depRow asset fy).map (fun r =>
        (r.opening_book_value, r.depreciation_amount, r.closing_book_value)))
        = some (1, 0, 1)) ∧
    ((calculate_depreciation [assetD] 0 "2021").map (fun r =>
      (r.opening_book_value, r.depreciation_amount, r.closing_book_value)))
      = [(1, 0, 1)] ∧
    calculate_depreciation [assetE] 0 "2021" = [] ∧
    calculate_depreciation [assetF] 0 "2021" = [] := by
  refine ⟨?_, ?_, ?_, ?_, by decide, by decide, by decide⟩
  · intro asset fy ay am hpa hlt
    have hpa1 : (parseYM asset.acquisition_date 1).1 = ay := by rw [hpa]
    simp only [depRow, hpa1]
    rw [if_pos (by omega)]
  · intro asset fy dy dm hpd hdd hdt hdy hlt
    have hq1 : (if asset.disposal_date ≠ "" ∧ asset.disposal_type ≠ "" then
        parseYM asset.disposal_date 12 else ((0 : Nat), (12 : Nat))).1 = dy := by
      rw [if_pos ⟨hdd, hdt⟩, hpd]
    simp only [depRow]
    by_cases hfirst : (parseYM asset.acquisition_date 1).1 > fy
    · rw [if_pos hfirst]
    · rw [if_neg hfirst, hq1, if_pos ⟨by omega, by omega⟩]
  · intro asset fy ay am hpa hay hdt0 hcum
    have hpa1 : (parseYM asset.acquisition_date 1).1 = ay := by rw [hpa]
    have hpa2 : (parseYM asset.acquisition_date 1).2 = am := by rw [hpa]
    have hq : (if asset.disposal_date ≠ "" ∧ asset.disposal_type ≠ "" then
        parseYM asset.disposal_date 12 else ((0 : Nat), (12 : Nat))) = (0, 12) := by
      rw [if_neg (fun hcon => hcon.2 hdt0)]
    simp only [depRow, hpa1, hpa2, hq]
    rw [if_neg (by omega), if_neg (fun hcon => hcon.1 rfl),
      if_pos (And.intro hcum (fun hcon => hcon.2 hdt0))]
    rfl
  · intro asset fy ay am dy dm hpa hay hpd hdd hdt hlt hcum
    have hpa1 : (parseYM asset.acquisition_date 1).1 = ay := by rw [hpa]
    have hpa2 : (parseYM asset.acquisition_date 1).2 = am := by rw [hpa]
    have hq1 : (if asset.disposal_date ≠ "" ∧ asset.disposal_type ≠ "" then
        parseYM asset.disposal_date 12 else ((0 : Nat), (12 : Nat))).1 = dy := by
      rw [if_pos ⟨hdd, hdt⟩, hpd]
    simp only [depRow, hpa1, hpa2, hq1]
    rw [if_neg (by omega), if_neg (fun hcon => absurd hcon.2 (by omega)),
      if_pos (And.intro hcum (fun hcon => absurd hcon.1 (by omega)))]
    rfl

/-- Witness for the amended C5 at `assetB` (Y = 2020): first and last
scheduled years check out. -/
theorem depreciation_no_disposal_600001_witness :
    ((depRow assetB 2020).map (fun r =>
      (r.opening_book_value, r.depreciation_amount, r.closing_book_value)))
      = some (600001, 90000, 510001) ∧
    ((depRow assetB 2025).map (fun r =>
      (r.opening_book_value, r.depreciation_amount, r.closing_book_value)))
      = some (30001, 30000, 1) := by
  have h := depreciation_no_disposal_600001 assetB 2020 (by decide) (by decide)
    (by decide) (by decide)
  exact ⟨h.1, h.2.2.2.2.2⟩

/-- Witness for C6 at Scenario C's asset, sold in its acquisition year. -/
theorem depreciation_disposal_spec_witness :
    ∃ row : DepRow, depRow assetC 2023 = some row ∧
      row.opening_book_value = assetC.acquisition_cost -
        cumLoop ((assetC.acquisition_cost - 1).fdiv assetC.useful_life)
          (assetC.acquisition_cost - 1) 2023 1 (List.range' 2023 (2023 - 2023)) 0 ∧
      row.depreciation_amount =
        min (((assetC.acquisition_cost - 1).fdiv assetC.useful_life *
              (if 2023 = 2023 then max (((6 : Nat) : Int) - ((1 : Nat) : Int) + 1) 1
               else ((6 : Nat) : Int))).fdiv 12)
          ((assetC.acquisition_cost - 1) -
            cumLoop ((assetC.acquisition_cost - 1).fdiv assetC.useful_life)
              (assetC.acquisition_cost - 1) 2023 1 (List.range' 2023 (2023 - 2023)) 0) ∧
      row.closing_book_value = 0 ∧
      (assetC.disposal_type = "売却" →
        row.disposal_remark = DispRemark.sold assetC.disposal_price
          (assetC.disposal_price -
            (row.opening_book_value - row.depreciation_amount))) :=
  depreciation_disposal_spec.1 assetC 2023 2023 1 6 (by decide) (by decide)
    (by decide) (by decide) (by decide) (Or.inr (by decide))

/-- Witness for C7: the fully-depreciated asset reports `(1, 0, 1)` in
2021, and the too-new / already-disposed assets produce no row. -/
theorem depreciation_skip_and_done_spec_witness :
    ((depRow assetD 2021).map (fun r =>
      (r.opening_book_value, r.depreciation_amount, r.closing_book_value)))
      = some (1, 0, 1) ∧
    depRow assetE 2021 = none ∧
    depRow assetF 2021 = none := by
  refine ⟨?_, ?_, ?_⟩
  · exact depreciation_skip_and_done_spec.2.2.1 assetD 2021 2015 4 (by decide)
      (by decide) (by decide) (by decide)
  · exact depreciation_skip_and_done_spec.1 assetE 2021 2022 7 (by decide) (by decide)
  · exact depreciation_skip_and_done_spec.2.1 assetF 2021 2019 6 (by decide)
      (by decide) (by decide) (by decide) (by decide)
